import Mathlib

/-!
Verification of the snakemake qsub submission profile scripts.

The repository holds two near-duplicate cluster-submission adapter scripts,
`qsub-submit.py` (here suffixed `_h`, for the hyphenated file name) and
`qsub_submit.py` (suffixed `_u`, underscored file name).  Both read a job
descriptor, build a qsub command line from configuration constants that are
baked into the script at deployment time, run it, and print the scheduler's
job identifier.  This file embeds the string-building and orchestration logic
of both scripts and proves or refutes the specification claims about them.

Python-level semantics (string strip, `int()` parsing, `str.split`, decimal
rendering of integers, truthiness of strings) are modelled by small explicit
functions, each documented with the Python behaviour it reproduces.
-/

/-- Characters stripped by Python's `str.strip()` with no arguments
(ASCII whitespace: space, tab, newline, carriage return, vertical tab,
form feed). -/
def pyIsSpace (c : Char) : Bool :=
  (c = ' ') || (c = '\t') || (c = '\n') || (c = '\r') || (c = '\x0b') || (c = '\x0c')

/-- Python `s.strip()`: removes leading and trailing whitespace. -/
def pyStrip (s : String) : String :=
  String.mk (((s.data.dropWhile pyIsSpace).reverse.dropWhile pyIsSpace).reverse)

/-- Value of a non-empty list of decimal digit characters. -/
def digitsToNat (cs : List Char) : Nat :=
  cs.foldl (fun a c => a * 10 + (c.toNat - 48)) 0

/-- Parse a non-empty all-digit character list, as the unsigned part of
Python `int(str)`. -/
def parseDigits : List Char → Option Nat
  | [] => none
  | cs => if cs.all Char.isDigit then some (digitsToNat cs) else none

/-- Python `int(s)` for a string argument: surrounding whitespace is ignored,
an optional single `+` or `-` sign precedes a non-empty run of decimal
digits; anything else raises `ValueError`, modelled as `none`. -/
def pyInt (s : String) : Option Int :=
  match (pyStrip s).data with
  | [] => none
  | c :: rest =>
    if c = '-' then (parseDigits rest).map (fun n => -(n : Int))
    else if c = '+' then (parseDigits rest).map (fun n => (n : Int))
    else (parseDigits (c :: rest)).map (fun n => (n : Int))

/-- Decimal digits of `n`, most significant first; the first argument is
structural fuel (any fuel at least the digit count of `n` is enough, and the
callers pass `n + 1`). -/
def natDigitsAux : Nat → Nat → List Char
  | 0, _ => []
  | _ + 1, 0 => []
  | fuel + 1, n + 1 =>
      natDigitsAux fuel ((n + 1) / 10) ++ [Nat.digitChar ((n + 1) % 10)]

/-- Python `str(n)` for a non-negative integer. -/
def natRepr (n : Nat) : String :=
  if n = 0 then "0" else String.mk (natDigitsAux (n + 1) n)

/-- Python `str(i)` for an arbitrary integer. -/
def intRepr : Int → String
  | Int.ofNat n => natRepr n
  | Int.negSucc n => "-" ++ natRepr (n + 1)

/-- Python `"x" or "y"` for strings: the left operand unless it is falsy
(empty), in which case the right operand. -/
def pyOr (s d : String) : String :=
  if s = "" then d else s

/-- Splitting a character list on the separator `-`, keeping empty pieces,
with an accumulator of the current piece's characters in reverse. -/
def pySplitDashAux : List Char → List Char → List String
  | [], acc => [String.mk acc.reverse]
  | c :: cs, acc =>
      if c = '-' then String.mk acc.reverse :: pySplitDashAux cs []
      else pySplitDashAux cs (c :: acc)

/-- Python `s.split("-")`: always a non-empty list, empty pieces kept. -/
def pySplitDash (s : String) : List String :=
  pySplitDashAux s.data []

/-- The whitespace-separated words of a string: splitting on space and
discarding empty pieces.  `acc` holds the characters of the current word in
reverse.  This is the token-level view of a qsub command line, used to state
that clauses contribute their tokens in order and empty clauses contribute
nothing. -/
def tokensAux : List Char → List Char → List String
  | [], acc => if acc.isEmpty then [] else [String.mk acc.reverse]
  | c :: cs, acc =>
      if c = ' ' then
        if acc.isEmpty then tokensAux cs []
        else String.mk acc.reverse :: tokensAux cs []
      else tokensAux cs (c :: acc)

/-- Space-separated tokens of a command string. -/
def tokens (s : String) : List String :=
  tokensAux s.data []

/-- Python `str(Path(d).joinpath(f))` for the shapes that occur here: an
absolute `f` replaces `d`; an empty `d` (`Path(".")`) disappears; otherwise
the two are joined with exactly one `/`. -/
def pathJoin (d f : String) : String :=
  if f.data.headD ' ' = '/' then f
  else if d = "" then f
  else if d.data.getLastD ' ' = '/' then d ++ f
  else d ++ "/" ++ f

/-- The `resources` mapping of a job descriptor (`mem_gb`, `use_java`
optional keys). -/
structure Resources where
  mem_gb : Option Int := none
  use_java : Option Bool := none
deriving DecidableEq, Repr

/-- JobDescriptor: the mapping returned by `read_job_properties`, with the
optional keys the scripts read.  `wildcards` keeps the mapping's insertion
order as a list of key-value pairs. -/
structure Job where
  type : Option String := none
  groupid : Option String := none
  jobid : Option String := none
  rule : Option String := none
  wildcards : Option (List (String × String)) := none
  threads : Option Int := none
  resources : Option Resources := none
deriving DecidableEq, Repr

/-- The cookiecutter configuration constants baked into the scripts at
deployment time.  The numeric ones arrive as raw text and are passed to
Python `int()` inside the scripts, so they are carried here as strings.
`reserve_min_mem_gb` is the memory threshold name used by `qsub-submit.py`,
`reserve_min_gb` the one used by `qsub_submit.py`. -/
structure Config where
  default_mem_gb : String
  reserve_min_threads : String
  reserve_min_mem_gb : String
  reserve_min_gb : String
  default_queue : String
  default_cluster_logdir : String
deriving DecidableEq, Repr

/-- A configuration constant intended to be numeric could not be parsed by
`int()`; carries the offending text. -/
structure ConfigParseError where
  value : String
deriving DecidableEq, Repr

/-- The external submission command exited non-zero; carries the exit
status. -/
structure SubmissionError where
  returncode : Int
deriving DecidableEq, Repr

/-- Embedding of `get_job_name` (identical in `qsub-submit.py` lines 23-33
and `qsub_submit.py` lines 20-31): group jobs are named
`<groupid>_<jobid up to the first hyphen>`, other jobs
`smk.<rule>.<wildcard values joined by underscore>`, with Python string
truthiness supplying the `"rule"` and `"unique"` fallbacks. -/
def get_job_name (job : Job) : String :=
  if job.type.getD "" = "group" then
    let groupid := job.groupid.getD "group"
    let jobid := (pySplitDash (job.jobid.getD "")).headD ""
    groupid ++ "_" ++ jobid
  else
    let wildcards := job.wildcards.getD []
    let wildcards_str := pyOr (String.intercalate "_" (wildcards.map Prod.snd)) "unique"
    let name := pyOr (job.rule.getD "") "rule"
    "smk." ++ name ++ "." ++ wildcards_str

/-- Thread sub-clause of `qsub-submit.py` (lines 41-45): the script assigns
the plain string literal `"-pe smp {threads}"` and never calls `str.format`
on it, so the brace placeholder survives verbatim in the output. -/
def thread_cmd_h (threads : Int) : String :=
  if threads > 1 then "-pe smp {threads}" else ""

/-- Thread sub-clause of `qsub_submit.py` (line 42):
`"-pe mpi-fillup {}".format(threads)` when `threads > 1`, else empty. -/
def thread_cmd_u (threads : Int) : String :=
  if threads > 1 then "-pe mpi-fillup " ++ intRepr threads else ""

/-- Java sub-clause of `qsub_submit.py` (line 45). -/
def java_cmd_u (use_java : Bool) : String :=
  if use_java then "-v MALLOC_ARENA_MAX=2" else ""

/-- Memory sub-clause, identical in both scripts
(`"-l s_vmem={mem_gb}G -l mem_req={mem_gb}G".format(mem_gb=mem_gb)`). -/
def mem_cmd_fmt (mem_gb : Int) : String :=
  "-l s_vmem=" ++ intRepr mem_gb ++ "G -l mem_req=" ++ intRepr mem_gb ++ "G"

/-- Reservation condition of both scripts (lines 48-49 in each):
`threads >= int(reserve_min_threads) or mem_gb >= int(reserve_min_gb)`.
The `int()` coercions happen inside the condition, so Python's left-to-right
short-circuit `or` skips the coercion of the memory threshold whenever the
thread comparison already succeeded; a failed coercion is the
`ConfigParseError`. -/
def reserve_check (threads mem_gb : Int) (rmt_s rmgb_s : String) :
    Except ConfigParseError Bool :=
  match pyInt rmt_s with
  | none => Except.error ⟨rmt_s⟩
  | some rmt =>
    if threads ≥ rmt then Except.ok true
    else
      match pyInt rmgb_s with
      | none => Except.error ⟨rmgb_s⟩
      | some rmgb => Except.ok (decide (mem_gb ≥ rmgb))

/-- Reservation sub-clause spelling of `qsub-submit.py` (line 50). -/
def reserve_cmd_h (b : Bool) : String :=
  if b then "-R yes" else ""

/-- Reservation sub-clause spelling of `qsub_submit.py` (line 50). -/
def reserve_cmd_u (b : Bool) : String :=
  if b then "-R y" else ""

/-- Embedding of `generate_resources_command` from `qsub-submit.py`
(lines 37-57): threads default to 1, `mem_gb` falls back to the coerced
`default_mem_gb` constant (Python evaluates the `int()` in
`resources.get("mem_gb", int(...))` eagerly, so a bad constant fails even
when `mem_gb` is present), and the three sub-clauses are joined by single
spaces in the order thread, memory, reservation. -/
def generate_resources_command_h (cfg : Config) (job : Job) :
    Except ConfigParseError String :=
  let threads := job.threads.getD 1
  let resources := job.resources.getD {}
  let thread_cmd := thread_cmd_h threads
  match pyInt cfg.default_mem_gb with
  | none => Except.error ⟨cfg.default_mem_gb⟩
  | some dm =>
    let mem_gb := resources.mem_gb.getD dm
    let mem_cmd := mem_cmd_fmt mem_gb
    match reserve_check threads mem_gb cfg.reserve_min_threads cfg.reserve_min_mem_gb with
    | Except.error e => Except.error e
    | Except.ok b =>
        Except.ok (thread_cmd ++ " " ++ mem_cmd ++ " " ++ reserve_cmd_h b)

/-- Embedding of `generate_resources_command` from `qsub_submit.py`
(lines 34-58): like the hyphen variant but with a leading java sub-clause,
the `mpi-fillup` parallel environment, and the `reserve_min_gb` threshold
name; order java, thread, memory, reservation. -/
def generate_resources_command_u (cfg : Config) (job : Job) :
    Except ConfigParseError String :=
  let threads := job.threads.getD 1
  let resources := job.resources.getD {}
  let use_java := (Resources.use_java resources).getD false
  match pyInt cfg.default_mem_gb with
  | none => Except.error ⟨cfg.default_mem_gb⟩
  | some dm =>
    let mem_gb := resources.mem_gb.getD dm
    let thread_cmd := thread_cmd_u threads
    let java_cmd := java_cmd_u use_java
    let mem_cmd := mem_cmd_fmt mem_gb
    match reserve_check threads mem_gb cfg.reserve_min_threads cfg.reserve_min_gb with
    | Except.error e => Except.error e
    | Except.ok b =>
        Except.ok (java_cmd ++ " " ++ thread_cmd ++ " " ++ mem_cmd ++ " " ++ reserve_cmd_u b)

/-- Queue clause of `qsub-submit.py` (line 89): the deployed line is
`queue_cmd = "-q {queue}" if "<default_queue>" else ""`, so a truthy
(non-empty) configured queue yields the literal text `-q {queue}` — the
placeholder is never formatted and the configured name never appears. -/
def queue_cmd_h (default_queue : String) : String :=
  if default_queue = "" then "" else "-q {queue}"

/-- Queue clause of `qsub_submit.py` (lines 91-94): the configured queue
name is substituted into the string at deployment time, producing
`-l <default_queue>`; empty when unconfigured. -/
def queue_cmd_u (default_queue : String) : String :=
  if default_queue = "" then "" else "-l " ++ default_queue

/-- Fixed submission prefix (`qsub-submit.py` line 86, `qsub_submit.py`
line 88). -/
def submit_cmd : String :=
  "qsub -terse -cwd -V"

/-- Embedding of `get_log_files` from `qsub_submit.py` (lines 61-78): the
log directory constant is a deployment-time parameter, carried here as an
argument. -/
def get_log_files_u (log_dir : String) (job : Job) : String :=
  let jobname := get_job_name job
  let out_log := jobname ++ ".out"
  let err_log := jobname ++ ".err"
  let out_log_path := pathJoin log_dir out_log
  let err_log_path := pathJoin log_dir err_log
  "-o " ++ out_log_path ++ " -e " ++ err_log_path ++ " -N " ++ jobname

/-- Embedding of `get_log_files` from `qsub-submit.py` (lines 60-76).  The
source declares a parameter `jobname` but immediately rebinds it from the
module-level `job` dictionary (line 62), so the argument — of any type; the
call site at line 95 actually passes the job dictionary — is ignored. -/
def get_log_files_h (log_dir : String) (job : Job) {α : Type} (jobname : α) : String :=
  let jobname := get_job_name job
  let out_log := jobname ++ ".out"
  let err_log := jobname ++ ".err"
  let out_log_path := pathJoin log_dir out_log
  let err_log_path := pathJoin log_dir err_log
  "-o " ++ out_log_path ++ " -e " ++ err_log_path ++ " -N " ++ jobname

/-- The final command template, identical in both scripts
(`"{submit} {queue} {res} {log} {cluster} {jobscript}".format(...)`):
the six pieces joined by single spaces.  `str.format` substitutes each value
in one pass without re-scanning it, so clause contents (including any brace
text) pass through verbatim. -/
def assemble_cmd (submit queue res log cluster jobscript : String) : String :=
  submit ++ " " ++ queue ++ " " ++ res ++ " " ++ log ++ " " ++ cluster ++ " " ++ jobscript

/-- Tail of both scripts: `subprocess.run(cmd, check=True, ...)` /
`shell(cmd, read=True)` raise on a non-zero exit status, so the final
`print` of the stripped captured output runs only on status zero.  The
result is what the run leaves on standard output: the job identifier on
success, nothing on failure. -/
def orchestrate (returncode : Int) (captured : String) :
    Except SubmissionError String :=
  if returncode = 0 then Except.ok (pyStrip captured)
  else Except.error ⟨returncode⟩

/-- Lines printed to standard output for a given orchestration outcome. -/
def printed : Except SubmissionError String → List String
  | Except.ok s => [s]
  | Except.error _ => []

/-- Job name as claim C3 states it, written from the claim's words: group
jobs are `<groupid>_<first segment of jobid before the first hyphen>`, other
jobs `smk.<rule>.<wildcard values joined by underscore in mapping order>`
with the token `"rule"` when the rule field is absent or empty and the token
`"unique"` when there are no wildcards. -/
def claimed_job_name (job : Job) : String :=
  if job.type = some "group" then
    (job.groupid.getD "group") ++ "_" ++
      String.mk ((job.jobid.getD "").data.takeWhile (fun c => c != '-'))
  else
    let r := if job.rule = none ∨ job.rule = some "" then "rule" else job.rule.getD ""
    let w :=
      if job.wildcards = none ∨ job.wildcards = some [] then "unique"
      else String.intercalate "_" ((job.wildcards.getD []).map Prod.snd)
    "smk." ++ r ++ "." ++ w

/-- Job name as claim C3 reads once amended: the token `"unique"` is
substituted exactly when the underscore-joined wildcard value string is
empty — which covers the no-wildcards case but also wildcards whose joined
values form the empty string. -/
def spec_job_name (job : Job) : String :=
  if job.type = some "group" then
    (job.groupid.getD "group") ++ "_" ++
      String.mk ((job.jobid.getD "").data.takeWhile (fun c => c != '-'))
  else
    let r := if job.rule = none ∨ job.rule = some "" then "rule" else job.rule.getD ""
    let j := String.intercalate "_" ((job.wildcards.getD []).map Prod.snd)
    "smk." ++ r ++ "." ++ (if j = "" then "unique" else j)

lemma string_mk_data (s : String) : String.mk s.data = s := rfl

lemma string_ext (s t : String) (h : s.data = t.data) : s = t := by
  cases s; cases t; exact congrArg String.mk h

lemma string_data_mk (l : List Char) : (String.mk l).data = l := rfl

lemma pySplitDashAux_headD (l acc : List Char) :
    (pySplitDashAux l acc).headD "" =
      String.mk (acc.reverse ++ l.takeWhile (fun c => c != '-')) := by
  induction l generalizing acc with
  | nil => simp [pySplitDashAux]
  | cons c cs ih =>
    by_cases hc : c = '-'
    · subst hc
      simp [pySplitDashAux, List.takeWhile_cons]
    · have hw : List.takeWhile (fun c => c != '-') (c :: cs) =
          c :: List.takeWhile (fun c => c != '-') cs := by
        simp [List.takeWhile_cons, hc]
      rw [hw]
      simp only [pySplitDashAux, if_neg hc]
      rw [ih (c :: acc)]
      simp

lemma pySplitDash_headD (s : String) :
    (pySplitDash s).headD "" = String.mk (s.data.takeWhile (fun c => c != '-')) := by
  simpa using pySplitDashAux_headD s.data []

lemma pySplitDash_head_getD (s : String) :
    (pySplitDash s).head?.getD "" = String.mk (s.data.takeWhile (fun c => c != '-')) := by
  simpa using pySplitDash_headD s

lemma rule_default_if (o : Option String) :
    (if o.getD "" = "" then "rule" else o.getD "") =
      if o = none ∨ o = some "" then "rule" else o.getD "" := by
  cases o with
  | none => simp
  | some s => by_cases hs : s = "" <;> simp [hs]

lemma tokensAux_append_space (l₁ l₂ acc : List Char) :
    tokensAux (l₁ ++ ' ' :: l₂) acc = tokensAux l₁ acc ++ tokensAux l₂ [] := by
  induction l₁ generalizing acc with
  | nil =>
    by_cases h : acc.isEmpty <;> simp [tokensAux, h]
  | cons c cs ih =>
    by_cases hc : c = ' '
    · subst hc
      by_cases h : acc.isEmpty <;> simp [tokensAux, h, ih]
    · simp [tokensAux, hc, ih]

lemma tokens_append_space (a b : String) :
    tokens (a ++ " " ++ b) = tokens a ++ tokens b := by
  have h : (a ++ " " ++ b).data = a.data ++ ' ' :: b.data := by
    simp [String.data_append, show (" " : String).data = [' '] from rfl]
  simp [tokens, h, tokensAux_append_space]

lemma tokensAux_nospace (l : List Char) (acc : List Char)
    (h : ∀ c ∈ l, c ≠ ' ') :
    tokensAux l acc =
      if acc.reverse ++ l = [] then [] else [String.mk (acc.reverse ++ l)] := by
  induction l generalizing acc with
  | nil =>
    by_cases ha : acc = [] <;> simp [tokensAux, ha]
  | cons c cs ih =>
    have hc : c ≠ ' ' := h c (by simp)
    have ih' := ih (c :: acc) (fun x hx => h x (by simp [hx]))
    simp [tokensAux, hc, ih']

lemma tokens_nospace (s : String) (hne : s.data ≠ [])
    (h : ∀ c ∈ s.data, c ≠ ' ') : tokens s = [s] := by
  simp [tokens, tokensAux_nospace s.data [] h, hne, string_mk_data]

lemma nospace_of_all (l : List Char)
    (h : l.all (fun c => !(c == ' ')) = true) : ∀ c ∈ l, c ≠ ' ' := by
  intro c hc
  simpa using List.all_eq_true.mp h c hc

lemma digitChar_ne_space : ∀ d : Nat, d < 10 → Nat.digitChar d ≠ ' ' := by decide

lemma natDigitsAux_nospace (fuel : Nat) :
    ∀ n : Nat, ∀ c ∈ natDigitsAux fuel n, c ≠ ' ' := by
  induction fuel with
  | zero => intro n c hc; simp [natDigitsAux] at hc
  | succ f ih =>
    intro n c hc
    cases n with
    | zero => simp [natDigitsAux] at hc
    | succ m =>
      simp only [natDigitsAux, List.mem_append, List.mem_singleton] at hc
      rcases hc with hc | hc
      · exact ih _ c hc
      · subst hc
        exact digitChar_ne_space _ (Nat.mod_lt _ (by decide))

lemma natRepr_nospace (n : Nat) : ∀ c ∈ (natRepr n).data, c ≠ ' ' := by
  unfold natRepr
  by_cases h : n = 0
  · subst h
    intro c hc
    simp only [if_pos rfl] at hc
    simp [show ("0" : String).data = ['0'] from rfl] at hc
    subst hc; decide
  · intro c hc
    simp only [if_neg h, string_data_mk] at hc
    exact natDigitsAux_nospace _ _ c hc

lemma intRepr_nospace (i : Int) : ∀ c ∈ (intRepr i).data, c ≠ ' ' := by
  cases i with
  | ofNat n => exact natRepr_nospace n
  | negSucc n =>
    intro c hc
    simp only [intRepr, String.data_append,
      show ("-" : String).data = ['-'] from rfl, List.singleton_append,
      List.mem_cons] at hc
    rcases hc with rfl | hc
    · decide
    · exact natRepr_nospace _ c hc

lemma append_nospace (a b : String)
    (ha : ∀ c ∈ a.data, c ≠ ' ') (hb : ∀ c ∈ b.data, c ≠ ' ') :
    ∀ c ∈ (a ++ b).data, c ≠ ' ' := by
  intro c hc
  rw [String.data_append] at hc
  rcases List.mem_append.mp hc with h | h
  · exact ha c h
  · exact hb c h

lemma mem_token_nospace (pre : String) (v : Int)
    (hpre : ∀ c ∈ pre.data, c ≠ ' ') :
    ∀ c ∈ (pre ++ intRepr v ++ "G").data, c ≠ ' ' :=
  append_nospace _ _ (append_nospace _ _ hpre (intRepr_nospace v))
    (nospace_of_all _ rfl)

lemma mem_token_ne_nil (pre : String) (v : Int) :
    (pre ++ intRepr v ++ "G").data ≠ [] := by
  simp [String.data_append, show ("G" : String).data = ['G'] from rfl]

lemma tokens_mem_cmd (v : Int) :
    tokens (mem_cmd_fmt v) =
      ["-l", "s_vmem=" ++ intRepr v ++ "G", "-l", "mem_req=" ++ intRepr v ++ "G"] := by
  have hshape : mem_cmd_fmt v =
      "-l" ++ " " ++ ("s_vmem=" ++ intRepr v ++ "G") ++ " " ++
        ("-l" ++ " " ++ ("mem_req=" ++ intRepr v ++ "G")) := by
    unfold mem_cmd_fmt
    apply string_ext
    simp only [String.data_append]
    simp [show ("-l s_vmem=" : String).data =
            ['-', 'l', ' ', 's', '_', 'v', 'm', 'e', 'm', '='] from rfl,
          show ("G -l mem_req=" : String).data =
            ['G', ' ', '-', 'l', ' ', 'm', 'e', 'm', '_', 'r', 'e', 'q', '='] from rfl,
          show ("-l" : String).data = ['-', 'l'] from rfl,
          show (" " : String).data = [' '] from rfl,
          show ("s_vmem=" : String).data = ['s', '_', 'v', 'm', 'e', 'm', '='] from rfl,
          show ("mem_req=" : String).data = ['m', 'e', 'm', '_', 'r', 'e', 'q', '='] from rfl,
          show ("G" : String).data = ['G'] from rfl]
  rw [hshape, tokens_append_space, tokens_append_space, tokens_append_space,
      tokens_nospace _ (mem_token_ne_nil "s_vmem=" v)
        (mem_token_nospace "s_vmem=" v (nospace_of_all _ rfl)),
      tokens_nospace _ (mem_token_ne_nil "mem_req=" v)
        (mem_token_nospace "mem_req=" v (nospace_of_all _ rfl)),
      show tokens "-l" = ["-l"] from rfl]
  rfl

lemma reserve_check_none_left (t m : Int) (rs gs : String)
    (h : pyInt rs = none) :
    reserve_check t m rs gs = Except.error ⟨rs⟩ := by
  simp [reserve_check, h]

lemma reserve_check_true_left (t m : Int) (rs gs : String) (rmt : Int)
    (h : pyInt rs = some rmt) (ht : t ≥ rmt) :
    reserve_check t m rs gs = Except.ok true := by
  simp [reserve_check, h, ht]

lemma reserve_check_none_right (t m : Int) (rs gs : String) (rmt : Int)
    (h : pyInt rs = some rmt) (ht : ¬ t ≥ rmt) (hg : pyInt gs = none) :
    reserve_check t m rs gs = Except.error ⟨gs⟩ := by
  simp [reserve_check, h, ht, hg]

lemma reserve_check_some_right (t m : Int) (rs gs : String) (rmt rmgb : Int)
    (h : pyInt rs = some rmt) (ht : ¬ t ≥ rmt) (hg : pyInt gs = some rmgb) :
    reserve_check t m rs gs = Except.ok (decide (m ≥ rmgb)) := by
  simp [reserve_check, h, ht, hg]

lemma generate_u_none (cfg : Config) (job : Job)
    (h : pyInt cfg.default_mem_gb = none) :
    generate_resources_command_u cfg job = Except.error ⟨cfg.default_mem_gb⟩ := by
  simp [generate_resources_command_u, h]

lemma generate_u_some (cfg : Config) (job : Job) (dm : Int)
    (h : pyInt cfg.default_mem_gb = some dm) :
    generate_resources_command_u cfg job =
      (match reserve_check (job.threads.getD 1)
          (((job.resources.getD {}).mem_gb).getD dm)
          cfg.reserve_min_threads cfg.reserve_min_gb with
       | Except.error e => Except.error e
       | Except.ok b =>
           Except.ok (java_cmd_u (((job.resources.getD {}).use_java).getD false) ++ " " ++
             thread_cmd_u (job.threads.getD 1) ++ " " ++
             mem_cmd_fmt (((job.resources.getD {}).mem_gb).getD dm) ++ " " ++
             reserve_cmd_u b)) := by
  simp [generate_resources_command_u, h]

lemma generate_h_none (cfg : Config) (job : Job)
    (h : pyInt cfg.default_mem_gb = none) :
    generate_resources_command_h cfg job = Except.error ⟨cfg.default_mem_gb⟩ := by
  simp [generate_resources_command_h, h]

lemma generate_h_some (cfg : Config) (job : Job) (dm : Int)
    (h : pyInt cfg.default_mem_gb = some dm) :
    generate_resources_command_h cfg job =
      (match reserve_check (job.threads.getD 1)
          (((job.resources.getD {}).mem_gb).getD dm)
          cfg.reserve_min_threads cfg.reserve_min_mem_gb with
       | Except.error e => Except.error e
       | Except.ok b =>
           Except.ok (thread_cmd_h (job.threads.getD 1) ++ " " ++
             mem_cmd_fmt (((job.resources.getD {}).mem_gb).getD dm) ++ " " ++
             reserve_cmd_h b)) := by
  simp [generate_resources_command_h, h]

/-- Concrete job used to refute the claim C3 wording: one wildcard whose
value is the empty string. -/
def job3 : Job :=
  { rule := some "align", wildcards := some [("sample", "")] }

/-- Concrete configuration showing that a non-numeric memory threshold goes
unnoticed when the thread comparison already succeeds. -/
def cfg9 : Config :=
  ⟨"8", "1", "abc", "abc", "", "logs"⟩

/-- Job with two threads, used with `cfg9`. -/
def job9 : Job :=
  { threads := some 2 }

/-- Configuration and job for the C6 and C8 witnesses. -/
def cfg6 : Config :=
  ⟨"8", "4", "16", "16", "", "logs"⟩

/-- Job with four threads and a two-gigabyte memory request. -/
def job6 : Job :=
  { threads := some 4, resources := some { mem_gb := some 2 } }

/-- C1: the claim says that for `threads <= 1` the thread sub-clause is
empty (true in both variants) and that for `threads > 1` it contains the
literal thread count in both script variants.  The `qsub_submit.py` variant
does interpolate the count, but `qsub-submit.py` assigns the format template
`"-pe smp {threads}"` without ever calling `.format`, so its thread
sub-clause is that literal text and the count `4` appears nowhere in it. -/
theorem C1_thread_clause_eval :
    thread_cmd_h 1 = "" ∧ thread_cmd_u 1 = "" ∧
    thread_cmd_u 4 = "-pe mpi-fillup 4" ∧
    thread_cmd_h 4 = "-pe smp {threads}" ∧
    ¬ List.IsInfix ("4" : String).data (thread_cmd_h 4).data := by
  refine ⟨rfl, rfl, rfl, rfl, ?_⟩
  decide

/-- C2: the claim says the queue clause is empty iff the configured queue is
empty (true in both variants) and that a configured queue is named in the
clause in both variants.  `qsub_submit.py` names it (`-l myqueue`), but
`qsub-submit.py` assigns the unformatted template `"-q {queue}"`, so the
configured name never appears in its queue clause. -/
theorem C2_queue_clause_eval :
    queue_cmd_h "" = "" ∧ queue_cmd_u "" = "" ∧
    queue_cmd_u "myqueue" = "-l myqueue" ∧
    queue_cmd_h "myqueue" = "-q {queue}" ∧
    ¬ List.IsInfix ("myqueue" : String).data (queue_cmd_h "myqueue").data := by
  refine ⟨rfl, rfl, rfl, rfl, ?_⟩
  decide

/-- C3 counterexample: for a job with one wildcard whose value is empty, the
claim's wording (`"unique"` only when there are no wildcards) predicts
`smk.align.` but the code yields `smk.align.unique`, because the scripts
substitute `"unique"` whenever the joined wildcard string is falsy. -/
theorem C3_counterexample :
    get_job_name job3 = "smk.align.unique" ∧
    claimed_job_name job3 = "smk.align." ∧
    get_job_name job3 ≠ claimed_job_name job3 := by
  refine ⟨rfl, rfl, ?_⟩
  decide

/-- C3 amended: `get_job_name` agrees everywhere with the spec-side name in
which `"unique"` is substituted exactly when the underscore-joined wildcard
value string is empty (in particular when there are no wildcards); the group
branch and the `"rule"` fallback are as the claim states, and the function
is total. -/
theorem C3_job_name_amended (job : Job) : get_job_name job = spec_job_name job := by
  obtain ⟨ty, gid, jid, rl, wc, th, rs⟩ := job
  unfold get_job_name spec_job_name
  cases ty with
  | none => simp [pyOr, rule_default_if]
  | some s =>
    by_cases hs : s = "group"
    · subst hs
      simp [pySplitDash_head_getD]
    · simp [hs, pyOr, rule_default_if]

/-- C4: a non-zero exit status of the submission command makes the
orchestration fail with a `SubmissionError` carrying that status, and
nothing is printed to standard output. -/
theorem C4_nonzero_exit_no_output (returncode : Int) (captured : String)
    (h : returncode ≠ 0) :
    orchestrate returncode captured = Except.error ⟨returncode⟩ ∧
    printed (orchestrate returncode captured) = [] := by
  have ho : orchestrate returncode captured = Except.error ⟨returncode⟩ := by
    simp [orchestrate, h]
  exact ⟨ho, by rw [ho]; rfl⟩

theorem C4_nonzero_exit_no_output_witness :
    (1 : Int) ≠ 0 ∧
    (orchestrate 1 "1234567\n" = Except.error ⟨1⟩ ∧
     printed (orchestrate 1 "1234567\n") = []) :=
  ⟨by decide, C4_nonzero_exit_no_output 1 "1234567\n" (by decide)⟩

/-- C5: on exit status zero the orchestration prints exactly the captured
standard output stripped of leading and trailing whitespace; in particular a
captured `"1234567\n"` is printed as `"1234567"`. -/
theorem C5_zero_exit_prints_stripped :
    (∀ captured, orchestrate 0 captured = Except.ok (pyStrip captured) ∧
      printed (orchestrate 0 captured) = [pyStrip captured]) ∧
    orchestrate 0 "1234567\n" = Except.ok "1234567" ∧
    printed (orchestrate 0 "1234567\n") = ["1234567"] :=
  ⟨fun _ => ⟨rfl, rfl⟩, rfl, rfl⟩

/-- C10: in `qsub-submit.py`, `get_log_files` ignores its argument — the
parameter is immediately shadowed by the name recomputed from the
module-level job — so any two argument values (of any types) give the same
log clause while the job and configured log directory are fixed. -/
theorem C10_log_clause_ignores_argument (log_dir : String) (job : Job)
    {α β : Type} (a : α) (b : β) :
    get_log_files_h log_dir job a = get_log_files_h log_dir job b := rfl

/-- C6: whenever the resource command of either variant is produced, its
token list splits into the variant's other sub-clauses around exactly the
two memory tokens `s_vmem=<v>G` and `mem_req=<v>G` (each preceded by its
`-l` flag), where `<v>` is `resources.mem_gb` when present and otherwise the
coerced configured default — so the memory value appears exactly twice, once
in the virtual-memory request token and once in the real-memory request
token, with unit suffix `G`. -/
theorem C6_memory_clause (cfg : Config) (job : Job) (dm : Int)
    (hdm : pyInt cfg.default_mem_gb = some dm) :
    (∀ s, generate_resources_command_u cfg job = Except.ok s →
      ∃ b, reserve_check (job.threads.getD 1) (((job.resources.getD {}).mem_gb).getD dm)
            cfg.reserve_min_threads cfg.reserve_min_gb = Except.ok b ∧
        tokens s =
          tokens (java_cmd_u (((job.resources.getD {}).use_java).getD false)) ++
          tokens (thread_cmd_u (job.threads.getD 1)) ++
          ["-l", "s_vmem=" ++ intRepr (((job.resources.getD {}).mem_gb).getD dm) ++ "G",
           "-l", "mem_req=" ++ intRepr (((job.resources.getD {}).mem_gb).getD dm) ++ "G"] ++
          tokens (reserve_cmd_u b)) ∧
    (∀ s, generate_resources_command_h cfg job = Except.ok s →
      ∃ b, reserve_check (job.threads.getD 1) (((job.resources.getD {}).mem_gb).getD dm)
            cfg.reserve_min_threads cfg.reserve_min_mem_gb = Except.ok b ∧
        tokens s =
          tokens (thread_cmd_h (job.threads.getD 1)) ++
          ["-l", "s_vmem=" ++ intRepr (((job.resources.getD {}).mem_gb).getD dm) ++ "G",
           "-l", "mem_req=" ++ intRepr (((job.resources.getD {}).mem_gb).getD dm) ++ "G"] ++
          tokens (reserve_cmd_h b)) := by
  constructor
  · intro s hs
    rw [generate_u_some cfg job dm hdm] at hs
    cases hrc : reserve_check (job.threads.getD 1)
        (((job.resources.getD {}).mem_gb).getD dm)
        cfg.reserve_min_threads cfg.reserve_min_gb with
    | error e => rw [hrc] at hs; cases hs
    | ok b =>
      rw [hrc] at hs
      refine ⟨b, rfl, ?_⟩
      cases hs
      rw [tokens_append_space, tokens_append_space, tokens_append_space,
          tokens_mem_cmd]
  · intro s hs
    rw [generate_h_some cfg job dm hdm] at hs
    cases hrc : reserve_check (job.threads.getD 1)
        (((job.resources.getD {}).mem_gb).getD dm)
        cfg.reserve_min_threads cfg.reserve_min_mem_gb with
    | error e => rw [hrc] at hs; cases hs
    | ok b =>
      rw [hrc] at hs
      refine ⟨b, rfl, ?_⟩
      cases hs
      rw [tokens_append_space, tokens_append_space, tokens_mem_cmd]

theorem C6_memory_clause_witness :
    pyInt "8" = some 8 ∧
    (∃ b, reserve_check 4 2 "4" "16" = Except.ok b ∧
      tokens " -pe mpi-fillup 4 -l s_vmem=2G -l mem_req=2G -R y" =
        tokens (java_cmd_u false) ++ tokens (thread_cmd_u 4) ++
        ["-l", "s_vmem=" ++ intRepr 2 ++ "G", "-l", "mem_req=" ++ intRepr 2 ++ "G"] ++
        tokens (reserve_cmd_u b)) :=
  ⟨rfl, (C6_memory_clause cfg6 job6 8 rfl).1 _ rfl⟩

/-- C7: given integer reservation thresholds (numeric threshold strings),
the reservation check succeeds and answers `true` exactly when
`threads >= reserve_min_threads` or `mem_gb >= reserve_min_(mem_)gb`, with
inclusive comparisons, and in both variants the reservation sub-clause is
non-empty exactly when that check answers `true`. -/
theorem C7_reservation_iff (threads mem_gb : Int) (rs gs : String) (rmt rmgb : Int)
    (hr : pyInt rs = some rmt) (hg : pyInt gs = some rmgb) :
    (reserve_check threads mem_gb rs gs = Except.ok true ↔
      (threads ≥ rmt ∨ mem_gb ≥ rmgb)) ∧
    (∀ b, reserve_check threads mem_gb rs gs = Except.ok b →
      ((reserve_cmd_u b ≠ "" ∧ reserve_cmd_h b ≠ "") ↔
        (threads ≥ rmt ∨ mem_gb ≥ rmgb))) := by
  by_cases ht : threads ≥ rmt
  · rw [reserve_check_true_left _ _ _ _ _ hr ht]
    refine ⟨by simp [ht], ?_⟩
    intro b hb
    cases hb
    exact ⟨fun _ => Or.inl ht, fun _ => ⟨by decide, by decide⟩⟩
  · rw [reserve_check_some_right _ _ _ _ _ _ hr ht hg]
    refine ⟨?_, ?_⟩
    · simp [ht]
    · intro b hb
      cases hb
      by_cases hm : mem_gb ≥ rmgb
      · rw [decide_eq_true hm]
        exact ⟨fun _ => Or.inr hm, fun _ => ⟨by decide, by decide⟩⟩
      · rw [decide_eq_false hm]
        constructor
        · intro hcon
          exact absurd rfl hcon.1
        · intro hor
          rcases hor with h | h
          · exact absurd h ht
          · exact absurd h hm

theorem C7_reservation_iff_witness :
    pyInt "4" = some 4 ∧ pyInt "16" = some 16 ∧
    ((reserve_check 4 8 "4" "16" = Except.ok true ↔
       ((4 : Int) ≥ 4 ∨ (8 : Int) ≥ 16)) ∧
     (∀ b, reserve_check 4 8 "4" "16" = Except.ok b →
       ((reserve_cmd_u b ≠ "" ∧ reserve_cmd_h b ≠ "") ↔
         ((4 : Int) ≥ 4 ∨ (8 : Int) ≥ 16)))) :=
  ⟨rfl, rfl, C7_reservation_iff 4 8 "4" "16" 4 16 rfl rfl⟩

/-- C8: in both script variants the assembled command's token list is
exactly the concatenation of the tokens of the submission prefix, queue
clause, resource clause, log clause, joined pass-through arguments, and
job-script path, in that fixed order — so no non-empty clause is dropped or
reordered, and empty clauses contribute no tokens (only the harmless extra
separator spaces of the one-pass format template).  The first conjunct is
the `qsub_submit.py` pipeline, the second the `qsub-submit.py` pipeline
(whose `get_log_files` is called on the job dictionary, as at its call
site). -/
theorem C8_clause_assembly (cfg : Config) (job : Job)
    (passthrough : List String) (res jobscript : String) :
    (tokens (assemble_cmd submit_cmd (queue_cmd_u cfg.default_queue) res
        (get_log_files_u cfg.default_cluster_logdir job)
        (String.intercalate " " passthrough) jobscript) =
      tokens submit_cmd ++ tokens (queue_cmd_u cfg.default_queue) ++ tokens res ++
      tokens (get_log_files_u cfg.default_cluster_logdir job) ++
      tokens (String.intercalate " " passthrough) ++ tokens jobscript) ∧
    (tokens (assemble_cmd submit_cmd (queue_cmd_h cfg.default_queue) res
        (get_log_files_h cfg.default_cluster_logdir job job)
        (String.intercalate " " passthrough) jobscript) =
      tokens submit_cmd ++ tokens (queue_cmd_h cfg.default_queue) ++ tokens res ++
      tokens (get_log_files_h cfg.default_cluster_logdir job job) ++
      tokens (String.intercalate " " passthrough) ++ tokens jobscript) := by
  constructor
  · unfold assemble_cmd
    rw [tokens_append_space, tokens_append_space, tokens_append_space,
        tokens_append_space, tokens_append_space]
  · unfold assemble_cmd
    rw [tokens_append_space, tokens_append_space, tokens_append_space,
        tokens_append_space, tokens_append_space]

/-- C9 counterexample: with the memory reservation threshold set to the
non-numeric text `abc`, a thread threshold of `1` and two threads, both
variants succeed — the short-circuit `or` never evaluates
`int("abc")` — although the claim demands a parse failure for every
configuration holding a non-numeric constant. -/
theorem C9_counterexample :
    pyInt "abc" = none ∧
    generate_resources_command_u cfg9 job9 =
      Except.ok " -pe mpi-fillup 2 -l s_vmem=8G -l mem_req=8G -R y" ∧
    generate_resources_command_h cfg9 job9 =
      Except.ok "-pe smp {threads} -l s_vmem=8G -l mem_req=8G -R yes" :=
  ⟨rfl, rfl, rfl⟩

/-- C9 amended: the configuration constants are coerced with `int()` before
any comparison in source order — the default memory always (Python evaluates
the fallback argument of `resources.get` eagerly), then the thread
threshold, and the memory threshold only when the thread comparison fails,
because the `or` short-circuits.  Every coercion actually performed fails
with a `ConfigParseError` on non-numeric text and never falls back to a
default; when all performed coercions succeed, no error is raised. -/
theorem C9_config_coercion_amended (cfg : Config) (job : Job) :
    (pyInt cfg.default_mem_gb = none →
      generate_resources_command_u cfg job = Except.error ⟨cfg.default_mem_gb⟩ ∧
      generate_resources_command_h cfg job = Except.error ⟨cfg.default_mem_gb⟩) ∧
    (∀ dm, pyInt cfg.default_mem_gb = some dm →
      pyInt cfg.reserve_min_threads = none →
      generate_resources_command_u cfg job = Except.error ⟨cfg.reserve_min_threads⟩ ∧
      generate_resources_command_h cfg job = Except.error ⟨cfg.reserve_min_threads⟩) ∧
    (∀ dm rmt, pyInt cfg.default_mem_gb = some dm →
      pyInt cfg.reserve_min_threads = some rmt →
      job.threads.getD 1 ≥ rmt →
      (∃ s, generate_resources_command_u cfg job = Except.ok s) ∧
      (∃ s, generate_resources_command_h cfg job = Except.ok s)) ∧
    (∀ dm rmt, pyInt cfg.default_mem_gb = some dm →
      pyInt cfg.reserve_min_threads = some rmt →
      ¬ job.threads.getD 1 ≥ rmt →
      ((pyInt cfg.reserve_min_gb = none →
          generate_resources_command_u cfg job = Except.error ⟨cfg.reserve_min_gb⟩) ∧
       (∀ g, pyInt cfg.reserve_min_gb = some g →
          ∃ s, generate_resources_command_u cfg job = Except.ok s) ∧
       (pyInt cfg.reserve_min_mem_gb = none →
          generate_resources_command_h cfg job = Except.error ⟨cfg.reserve_min_mem_gb⟩) ∧
       (∀ g, pyInt cfg.reserve_min_mem_gb = some g →
          ∃ s, generate_resources_command_h cfg job = Except.ok s))) := by
  refine ⟨?_, ?_, ?_, ?_⟩
  · intro h
    exact ⟨generate_u_none _ _ h, generate_h_none _ _ h⟩
  · intro dm hdm hrt
    rw [generate_u_some _ _ _ hdm, generate_h_some _ _ _ hdm,
        reserve_check_none_left _ _ _ _ hrt, reserve_check_none_left _ _ _ _ hrt]
    exact ⟨rfl, rfl⟩
  · intro dm rmt hdm hrt ht
    rw [generate_u_some _ _ _ hdm, generate_h_some _ _ _ hdm,
        reserve_check_true_left _ _ _ _ _ hrt ht,
        reserve_check_true_left _ _ _ _ _ hrt ht]
    exact ⟨⟨_, rfl⟩, ⟨_, rfl⟩⟩
  · intro dm rmt hdm hrt ht
    refine ⟨?_, ?_, ?_, ?_⟩
    · intro hg
      rw [generate_u_some _ _ _ hdm,
          reserve_check_none_right _ _ _ _ _ hrt ht hg]
    · intro g hg
      rw [generate_u_some _ _ _ hdm,
          reserve_check_some_right _ _ _ _ _ _ hrt ht hg]
      exact ⟨_, rfl⟩
    · intro hg
      rw [generate_h_some _ _ _ hdm,
          reserve_check_none_right _ _ _ _ _ hrt ht hg]
    · intro g hg
      rw [generate_h_some _ _ _ hdm,
          reserve_check_some_right _ _ _ _ _ _ hrt ht hg]
      exact ⟨_, rfl⟩

theorem C9_config_coercion_amended_witness :
    pyInt "8" = some 8 ∧ pyInt "x" = none ∧
    (generate_resources_command_u ⟨"8", "x", "16", "16", "", "logs"⟩ job9 =
       Except.error ⟨"x"⟩ ∧
     generate_resources_command_h ⟨"8", "x", "16", "16", "", "logs"⟩ job9 =
       Except.error ⟨"x"⟩) :=
  ⟨rfl, rfl,
    (C9_config_coercion_amended ⟨"8", "x", "16", "16", "", "logs"⟩ job9).2.1 8 rfl rfl⟩

example : pyInt "  42 " = some 42 := by rfl
example : pyInt "-7" = some (-7) := by rfl
example : pyInt "abc" = none := by rfl
example : pyInt "" = none := by rfl
example : intRepr 1234 = "1234" := by rfl
example : intRepr (-8) = "-8" := by rfl
example : pyStrip "1234567\n" = "1234567" := by rfl
example : tokens " a  bc " = ["a", "bc"] := by rfl
example : pySplitDash "abc-123" = ["abc", "123"] := by rfl
example : pySplitDash "" = [""] := by rfl
example : get_job_name { rule := some "align", wildcards := some [("sample", "A1")] } =
    "smk.align.A1" := by rfl
example : get_job_name {} = "smk.rule.unique" := by rfl
example : get_job_name { type := some "group", groupid := some "g1", jobid := some "abc-123" } =
    "g1_abc" := by rfl
example : get_job_name { rule := some "align", wildcards := some [("s", "")] } =
    "smk.align.unique" := by rfl
example :
    generate_resources_command_u
      ⟨"8", "1", "abc", "abc", "", "logs"⟩ { threads := some 2 } =
    Except.ok " -pe mpi-fillup 2 -l s_vmem=8G -l mem_req=8G -R y" := by rfl
example :
    generate_resources_command_h
      ⟨"8", "1", "abc", "abc", "", "logs"⟩ { threads := some 2 } =
    Except.ok "-pe smp {threads} -l s_vmem=8G -l mem_req=8G -R yes" := by rfl
example : queue_cmd_h "myqueue" = "-q {queue}" := by rfl
example : queue_cmd_u "myqueue" = "-l myqueue" := by rfl
example : get_log_files_u "/logs" { rule := some "align", wildcards := some [("sample", "A1")] } =
    "-o /logs/smk.align.A1.out -e /logs/smk.align.A1.err -N smk.align.A1" := by rfl
example : orchestrate 0 "1234567\n" = Except.ok "1234567" := by rfl
example : orchestrate 1 "oops" = Except.error ⟨1⟩ := by rfl
